import Mathlib

/-!
Verification of the transformation-cache / similarity-matching subsystem of the
CSV-Inventory-Uploader repository (aiTransformCacheService + aiEnhancedTransformService).

The JavaScript source is shallowly embedded: optional record fields become
Option String, the JS truthy-or operator (where the empty string is falsy)
becomes jsOr, the similarity scores become exact rationals, the string-keyed
templates object becomes an association list, and the stateful service
functions become pure functions returning the updated cache.  The external
text-generation call (generateWithAI followed by JSON.parse) is abstracted as
an oracle parameter returning Option RawOut, with none standing for a failed
or unparseable generation.
-/

namespace CSVUploader

/-- JS truthy-or on an optional string field: models the expression
`v || d` where a missing field (undefined) and the empty string are both
falsy and fall through to the default. -/
def jsOr (v : Option String) (d : String) : String :=
  match v with
  | none => d
  | some s => if s = "" then d else s

/-- The truthy value of an optional string, if any (empty string is falsy). -/
def truthy (v : Option String) : Option String :=
  match v with
  | none => none
  | some s => if s = "" then none else some s

/-- Lowercasing of a string, character by character: embeds the JS
toLowerCase call on the ASCII data of this repository. -/
def toLowerStr (s : String) : String :=
  String.mk (s.data.map Char.toLower)

/-- Removal of leading and trailing whitespace: embeds the JS trim call. -/
def trimStr (s : String) : String :=
  String.mk (((s.data.dropWhile Char.isWhitespace).reverse.dropWhile Char.isWhitespace).reverse)

/-- Source record (one inventory row).  Only the fields read by the cache
subsystem are modelled; each is optional, as in the dynamically shaped JS
object.  Field `catDesc` embeds the JS key Cat Desc, `subDesc` embeds
Sub Desc, `compQty` embeds Comp Qty, `ourprice` embeds Ourprice. -/
structure Product where
  catDesc : Option String := none
  subDesc : Option String := none
  mfg : Option String := none
  model : Option String := none
  desc : Option String := none
  category : Option String := none
  subcategory : Option String := none
  vendor : Option String := none
  brand : Option String := none
  ourprice : Option String := none
  sku : Option String := none
  compQty : Option String := none
  barcode : Option String := none
deriving DecidableEq

/-- The fixed subset of source fields retained in a cached example
(sourceProduct in cacheTransformation). -/
structure SourceProduct where
  mfg : Option String := none
  model : Option String := none
  desc : Option String := none
  catDesc : Option String := none
  subDesc : Option String := none
deriving DecidableEq

/-- A JS leaf value that is either a string or a number; used for the
inventory_quantity variant field, whose JS default is the number 0 while a
present field is passed through as is. -/
inductive JVal where
  | str (s : String)
  | num (n : Int)
deriving DecidableEq

/-- One Shopify variant, as built by applyTemplate and by the miss-path
normalization in transformProductWithAI. -/
structure Variant where
  price : String
  sku : String
  inventoryQuantity : JVal
  barcode : String
  option1 : Option String := none
deriving DecidableEq

/-- The inner Shopify product shape (the object under the product key). -/
structure InnerProduct where
  title : String := ""
  bodyHtml : String := ""
  vendor : String := ""
  productType : String := ""
  tags : String := ""
  published : Bool := true
  variants : List Variant := []
  images : List String := []
deriving DecidableEq

/-- The enveloped Shopify output: an object with a single product field. -/
structure ShopifyOut where
  product : InnerProduct
deriving DecidableEq

/-- Raw output of the external generator after JSON parsing: either already
enveloped in a product field, or the inner shape returned directly. -/
inductive RawOut where
  | enveloped (p : InnerProduct)
  | bare (p : InnerProduct)
deriving DecidableEq

/-- One cached example: the retained source-field subset, the full generated
output, and the insertion timestamp. -/
structure Example where
  sourceProduct : SourceProduct
  shopifyProduct : ShopifyOut
  cachedAt : String
deriving DecidableEq

/-- One template (bucket of examples sharing a cache key). -/
structure Template where
  category : String
  subcategory : String
  brand : String
  examples : List Example
  createdAt : String
  lastUsed : Option String := none
deriving DecidableEq

/-- Running counters of the cache. -/
structure Stats where
  totalTransformations : Nat := 0
  cacheHits : Nat := 0
  cacheMisses : Nat := 0
  createdAt : String
  lastUpdated : Option String := none
deriving DecidableEq

/-- The root cache object: a string-keyed templates map (association list
embedding of the JS object) plus the stats counters. -/
structure Cache where
  templates : List (String × Template)
  stats : Stats
deriving DecidableEq

/-- The result of findMatchingTemplate on a hit. -/
structure TemplateMatch where
  template : Template
  similarity : ℚ
  cacheKey : String
deriving DecidableEq

/-- The subset of applyFieldMappings output read by the cache subsystem
(fallback values for vendor, product_type and the variant fields). -/
structure MappedData where
  vendor : Option String := none
  productType : Option String := none
  variantsPrice : Option String := none
  variantsSku : Option String := none
  variantsInventoryQuantity : Option String := none
deriving DecidableEq

/-- Object lookup on the templates map: embeds `cache.templates[cacheKey]`. -/
def getTemplate (ts : List (String × Template)) (k : String) : Option Template :=
  (ts.find? (fun kv => kv.1 == k)).map (fun kv => kv.2)

/-- Object assignment on the templates map: embeds
`cache.templates[cacheKey] = t` (update in place if present, append else). -/
def setTemplate (ts : List (String × Template)) (k : String) (t : Template) :
    List (String × Template) :=
  if ts.any (fun kv => kv.1 == k) then
    ts.map (fun kv => if kv.1 == k then (k, t) else kv)
  else
    ts ++ [(k, t)]

/-- generateCacheKey from aiTransformCacheService: lowercase, trimmed,
pipe-joined triple with the literal unknown defaults. -/
def generateCacheKey (product : Product) : String :=
  let category := trimStr (toLowerStr (jsOr product.catDesc (jsOr product.category "unknown")))
  let subcategory := trimStr (toLowerStr (jsOr product.subDesc (jsOr product.subcategory "")))
  let brand := trimStr (toLowerStr (jsOr product.mfg (jsOr product.vendor (jsOr product.brand "unknown"))))
  category ++ "|" ++ subcategory ++ "|" ++ brand

/-- calculateSimilarity from aiTransformCacheService: sequential accumulation
of 0.4 for a case-insensitive category match, 0.3 for subcategory, 0.3 for
brand, a missing field comparing as the empty string. -/
def calculateSimilarity (product1 : Product) (product2 : SourceProduct) : ℚ :=
  let score : ℚ := 0
  let score := if toLowerStr (jsOr product1.catDesc "") = toLowerStr (jsOr product2.catDesc "")
    then score + 0.4 else score
  let score := if toLowerStr (jsOr product1.subDesc "") = toLowerStr (jsOr product2.subDesc "")
    then score + 0.3 else score
  let score := if toLowerStr (jsOr product1.mfg "") = toLowerStr (jsOr product2.mfg "")
    then score + 0.3 else score
  score

/-- SIMILARITY_THRESHOLD from aiTransformCacheService. -/
def SIMILARITY_THRESHOLD : ℚ := 0.7

/-- Maximum of a list of rationals; embeds `Math.max(...similarities)`.
The empty case models the minus-infinity result of an empty spread with a
value below every threshold; it is unreachable behind the nonempty guard in
findMatchingTemplate. -/
def listMaxQ : List ℚ → ℚ
  | [] => -1
  | q :: qs => qs.foldl max q

/-- findMatchingTemplate from aiTransformCacheService.  Returns the optional
match together with the updated cache, because the JS function mutates the
stats counters of the shared cache (cacheHits on a returned match, cacheMisses
otherwise). -/
def findMatchingTemplate (product : Product) (cache : Cache) :
    Option TemplateMatch × Cache :=
  let cacheKey := generateCacheKey product
  let missCache : Cache :=
    { cache with stats := { cache.stats with cacheMisses := cache.stats.cacheMisses + 1 } }
  match getTemplate cache.templates cacheKey with
  | some template =>
    if template.examples.length > 0 then
      let similarities := template.examples.map
        (fun e => calculateSimilarity product e.sourceProduct)
      let maxSimilarity := listMaxQ similarities
      if SIMILARITY_THRESHOLD ≤ maxSimilarity then
        (some { template := template, similarity := maxSimilarity, cacheKey := cacheKey },
         { cache with stats := { cache.stats with cacheHits := cache.stats.cacheHits + 1 } })
      else
        (none, missCache)
    else
      (none, missCache)
  | none => (none, missCache)

set_option linter.unusedVariables false in
/-- Case-insensitive global replacement of a literal pattern, on character
lists: embeds the JS regex replace with the gi flags used on body_html in
applyTemplate (leftmost scan, non-overlapping, resuming after each match). -/
def replaceCICore (pat repl : List Char) : List Char → List Char
  | [] => []
  | c :: rest =>
    if h : pat = [] then c :: rest
    else
      if (pat.map Char.toLower).isPrefixOf ((c :: rest).map Char.toLower) then
        repl ++ replaceCICore pat repl ((c :: rest).drop pat.length)
      else
        c :: replaceCICore pat repl rest
termination_by s => s.length
decreasing_by
  · simp only [List.length_drop, List.length_cons]
    have hp : 0 < pat.length := List.length_pos.mpr h
    omega
  · simp

/-- Case-insensitive global replacement on strings. -/
def replaceCI (s pat repl : String) : String :=
  String.mk (replaceCICore pat.data repl.data s.data)

/-- The list of truthy entries of a list of optional strings: embeds the JS
`.filter(Boolean)` on the tags array (removing missing and empty values). -/
def filterTruthy (l : List (Option String)) : List String :=
  l.filterMap truthy

/-- The single variant built from the candidate product itself, as written
identically in applyTemplate and in the miss-path normalization of
transformProductWithAI. -/
def synthVariant (product : Product) (mappedData : MappedData) : Variant :=
  { price := jsOr product.ourprice (jsOr mappedData.variantsPrice "0")
    sku := jsOr product.sku (jsOr mappedData.variantsSku "")
    inventoryQuantity :=
      match truthy product.compQty with
      | some s => JVal.str s
      | none =>
        match truthy mappedData.variantsInventoryQuantity with
        | some s => JVal.str s
        | none => JVal.num 0
    barcode := jsOr product.barcode ""
    option1 := some "Default Title" }

/-- Placeholder Example standing for the JS undefined produced by indexing an
empty examples array; unreachable on the call path, which is guarded by
findMatchingTemplate returning a match (nonempty examples). -/
def emptyExample : Example :=
  { sourceProduct := {}, shopifyProduct := { product := {} }, cachedAt := "" }

/-- applyTemplate from aiTransformCacheService: adapts the structure of the
most recent example of the matched template to the new product. -/
def applyTemplate (product : Product) (templateMatch : TemplateMatch)
    (mappedData : MappedData) : ShopifyOut :=
  let template := templateMatch.template
  let latestExample := template.examples.getLastD emptyExample
  let shopifyTemplate := latestExample.shopifyProduct
  { product :=
    { title := ((jsOr product.mfg "") ++ " " ++ (jsOr product.model "") ++ " "
        ++ (jsOr product.desc "")).trim
      bodyHtml :=
        let b := shopifyTemplate.product.bodyHtml
        let b := replaceCI b "\x7b\x7bmfg\x7d\x7d" (jsOr product.mfg "")
        let b := replaceCI b "\x7b\x7bmodel\x7d\x7d" (jsOr product.model "")
        let b := replaceCI b "\x7b\x7bdesc\x7d\x7d" (jsOr product.desc "")
        let b := replaceCI b "\x7b\x7bcategory\x7d\x7d" (jsOr product.catDesc "")
        let b := replaceCI b "\x7b\x7bsubcategory\x7d\x7d" (jsOr product.subDesc "")
        b
      vendor := jsOr product.mfg (jsOr mappedData.vendor "")
      productType := jsOr product.catDesc (jsOr mappedData.productType "")
      tags := String.intercalate ", "
        (filterTruthy [product.catDesc, product.subDesc, product.mfg])
      published := false
      variants := [synthVariant product mappedData]
      images := [] } }

/-- cacheTransformation from aiTransformCacheService, with the timestamp of
the call passed explicitly.  Includes the in-memory effect of the trailing
saveTransformationCache call (setting stats.lastUpdated); the I/O itself is
tracked by the orchestrator embedding through a saved flag. -/
def cacheTransformation (product : Product) (shopifyProduct : ShopifyOut)
    (cache : Cache) (now : String) : Cache :=
  let cacheKey := generateCacheKey product
  let template :=
    match getTemplate cache.templates cacheKey with
    | some t => t
    | none =>
      { category := jsOr product.catDesc "unknown"
        subcategory := jsOr product.subDesc ""
        brand := jsOr product.mfg "unknown"
        examples := []
        createdAt := now }
  let examples := template.examples ++
    [{ sourceProduct :=
        { mfg := product.mfg, model := product.model, desc := product.desc,
          catDesc := product.catDesc, subDesc := product.subDesc }
       shopifyProduct := shopifyProduct
       cachedAt := now }]
  let examples := if examples.length > 5 then examples.drop (examples.length - 5) else examples
  let template := { template with examples := examples, lastUsed := some now }
  { templates := setTemplate cache.templates cacheKey template
    stats := { cache.stats with
      totalTransformations := cache.stats.totalTransformations + 1
      lastUpdated := some now } }

/-- The freshly initialized empty cache returned by loadTransformationCache
when no persisted file exists. -/
def freshCache (now : String) : Cache :=
  { templates := []
    stats := { totalTransformations := 0, cacheHits := 0, cacheMisses := 0,
               createdAt := now } }

/-- loadTransformationCache from aiTransformCacheService.  The persisted file
content is an Option String (none embeds the ENOENT read failure) and
JSON.parse is abstracted as a parameter returning none on a parse error,
which the JS code rethrows. -/
def loadTransformationCache (disk : Option String)
    (parseJson : String → Option Cache) (now : String) : Except String Cache :=
  match disk with
  | none => Except.ok (freshCache now)
  | some data =>
    match parseJson data with
    | some cache => Except.ok cache
    | none => Except.error "CacheCorrupt"

/-- The normalization applied to the parsed generator output on the miss path
of transformProductWithAI: envelope the inner shape when it was returned
directly, force draft mode, force an empty image list, and synthesize one
variant from the candidate when none is present. -/
def normalizeShopify (product : Product) (mappedData : MappedData)
    (raw : RawOut) : ShopifyOut :=
  let p :=
    match raw with
    | RawOut.enveloped q => q
    | RawOut.bare q => q
  let p := { p with published := false, images := [] }
  let p := if p.variants.isEmpty then { p with variants := [synthVariant product mappedData] } else p
  { product := p }

/-- The result of one call of the orchestrator: the produced output (none on
generation failure, which the JS code propagates as an exception), whether
the external generator was invoked, whether the cache was persisted, and the
cache state after the call. -/
structure TransformResult where
  output : Option ShopifyOut
  aiCalled : Bool
  saved : Bool
  cache : Cache
deriving DecidableEq

/-- The straight-line tail of transformProductWithAI after the cache-hit test
fails: invoke the generator, normalize, cache and persist. -/
def transformMiss (gen : Product → MappedData → Option RawOut) (now : String)
    (product : Product) (mappedData : MappedData) (c1 : Cache) : TransformResult :=
  match gen product mappedData with
  | none => { output := none, aiCalled := true, saved := false, cache := c1 }
  | some raw =>
    let normalized := normalizeShopify product mappedData raw
    let c2 := cacheTransformation product normalized c1 now
    { output := some normalized, aiCalled := true, saved := true, cache := c2 }

/-- transformProductWithAI from aiEnhancedTransformService.  Step 1 of the JS
code (applyFieldMappings, a pure projection of the product through the field
mapping) is abstracted as the mappedData argument; the generator together
with JSON.parse is the gen oracle. -/
def transformProductWithAI (gen : Product → MappedData → Option RawOut)
    (now : String) (product : Product) (mappedData : MappedData)
    (cache : Cache) : TransformResult :=
  match findMatchingTemplate product cache with
  | (some templateMatch, c1) =>
    if (0.8 : ℚ) ≤ templateMatch.similarity then
      { output := some (applyTemplate product templateMatch mappedData)
        aiCalled := false, saved := false, cache := c1 }
    else
      transformMiss gen now product mappedData c1
  | (none, c1) => transformMiss gen now product mappedData c1

/-- One step of a transform sequence: the product, its mapped fields, the
generator response for this product, and the wall-clock timestamp. -/
structure TransformStep where
  product : Product
  mappedData : MappedData
  genResult : Option RawOut
  now : String

/-- Run a sequence of transforms against a starting cache, keeping the final
cache state. -/
def runTransforms (steps : List TransformStep) (cache : Cache) : Cache :=
  steps.foldl
    (fun c s =>
      (transformProductWithAI (fun _ _ => s.genResult) s.now s.product s.mappedData c).cache)
    cache

/-- One direct cacheTransformation call of an insertion sequence. -/
structure CacheInsert where
  product : Product
  shopifyProduct : ShopifyOut
  now : String

/-- Run a sequence of direct cacheTransformation calls. -/
def runCacheInserts (inserts : List CacheInsert) (cache : Cache) : Cache :=
  inserts.foldl (fun c i => cacheTransformation i.product i.shopifyProduct c i.now) cache

/-- The examples stored under a key, or the empty list when the key has no
template. -/
def examplesAt (k : String) (cache : Cache) : List Example :=
  match getTemplate cache.templates k with
  | some t => t.examples
  | none => []

/-- The example that one cacheTransformation call for this insert appends. -/
def insertedExample (i : CacheInsert) : Example :=
  { sourceProduct :=
      { mfg := i.product.mfg, model := i.product.model, desc := i.product.desc,
        catDesc := i.product.catDesc, subDesc := i.product.subDesc }
    shopifyProduct := i.shopifyProduct
    cachedAt := i.now }

/-- Spec-side similarity formula, written from the words of the spec: a
weighted sum of three binary indicators with weights 0.4, 0.3, 0.3, each a
case-insensitive exact comparison treating a missing field as the empty
string. -/
def specSimilarity (product1 : Product) (product2 : SourceProduct) : ℚ :=
  (if toLowerStr (jsOr product1.catDesc "") = toLowerStr (jsOr product2.catDesc "")
    then (0.4 : ℚ) * 1 else (0.4 : ℚ) * 0)
  + (if toLowerStr (jsOr product1.subDesc "") = toLowerStr (jsOr product2.subDesc "")
    then (0.3 : ℚ) * 1 else (0.3 : ℚ) * 0)
  + (if toLowerStr (jsOr product1.mfg "") = toLowerStr (jsOr product2.mfg "")
    then (0.3 : ℚ) * 1 else (0.3 : ℚ) * 0)

/-- Spec-side hit condition, written from the words of the spec: the cache
holds a template under the product key with some example whose similarity to
the product is at least 0.8. -/
def specHighSimilarityMatch (product : Product) (cache : Cache) : Prop :=
  ∃ t, getTemplate cache.templates (generateCacheKey product) = some t ∧
    ∃ e ∈ t.examples, (0.8 : ℚ) ≤ calculateSimilarity product e.sourceProduct

/-- The best similarity of a product against the cached examples under its
own key; below every threshold when the key has no template or no example. -/
def bestSimilarity (product : Product) (cache : Cache) : ℚ :=
  match getTemplate cache.templates (generateCacheKey product) with
  | some t =>
    if t.examples.length > 0 then
      listMaxQ (t.examples.map (fun e => calculateSimilarity product e.sourceProduct))
    else -1
  | none => -1

/-! Small exact-arithmetic facts about the score and threshold constants,
used to evaluate the otherwise irreducible rational operations. -/

lemma ratAddZero04 : (0 : ℚ) + 0.4 = 0.4 := by norm_num

lemma ratAdd0403 : (0.4 : ℚ) + 0.3 = 0.7 := by norm_num

lemma ratAdd0703 : (0.7 : ℚ) + 0.3 = 1 := by norm_num

lemma ratAddZero03 : (0 : ℚ) + 0.3 = 0.3 := by norm_num

lemma ratAdd0303 : (0.3 : ℚ) + 0.3 = 0.6 := by norm_num

lemma ratLe0707 : ((0.7 : ℚ) ≤ 0.7) = True := by norm_num

lemma ratLe071 : ((0.7 : ℚ) ≤ 1) = True := by norm_num

lemma ratLe081 : ((0.8 : ℚ) ≤ 1) = True := by norm_num

lemma ratLe0807 : ((0.8 : ℚ) ≤ 0.7) = False := by norm_num

/-- Bounding a list maximum from below is bounding some member from below. -/
lemma le_listMaxQ_iff (q a : ℚ) (l : List ℚ) :
    q ≤ listMaxQ (a :: l) ↔ ∃ x ∈ a :: l, q ≤ x := by
  induction l generalizing a with
  | nil => simp [listMaxQ]
  | cons b bs ih =>
    have h1 : listMaxQ (a :: b :: bs) = listMaxQ (max a b :: bs) := by
      simp [listMaxQ]
    rw [h1, ih]
    constructor
    · rintro ⟨x, hx, hq⟩
      rcases List.mem_cons.mp hx with rfl | hx
      · rcases le_max_iff.mp hq with hq | hq
        · exact ⟨a, by simp, hq⟩
        · exact ⟨b, by simp, hq⟩
      · exact ⟨x, by simp [hx], hq⟩
    · rintro ⟨x, hx, hq⟩
      rcases List.mem_cons.mp hx with rfl | hx
      · exact ⟨max x b, by simp, le_max_iff.mpr (Or.inl hq)⟩
      · rcases List.mem_cons.mp hx with rfl | hx
        · exact ⟨max a x, by simp, le_max_iff.mpr (Or.inr hq)⟩
        · exact ⟨x, by simp [hx], hq⟩

/-- The list-maximum bound over mapped examples, phrased on the examples
themselves. -/
lemma le_listMaxQ_map_iff (q : ℚ) (f : Example → ℚ) (es : List Example)
    (hne : es ≠ []) :
    q ≤ listMaxQ (es.map f) ↔ ∃ e ∈ es, q ≤ f e := by
  cases es with
  | nil => exact absurd rfl hne
  | cons e0 rest =>
    rw [List.map_cons, le_listMaxQ_iff]
    constructor
    · rintro ⟨x, hx, hq⟩
      rcases List.mem_cons.mp hx with rfl | hx
      · exact ⟨e0, by simp, hq⟩
      · rcases List.mem_map.mp hx with ⟨e, he, rfl⟩
        exact ⟨e, List.mem_cons_of_mem e0 he, hq⟩
    · rintro ⟨e, he, hq⟩
      rcases List.mem_cons.mp he with rfl | he
      · exact ⟨f e, by simp, hq⟩
      · exact ⟨f e, List.mem_cons_of_mem (f e0) (List.mem_map_of_mem f he), hq⟩

/-- Frame and accounting behavior of findMatchingTemplate: the templates map
and every stats field except the mutated counter are preserved, and exactly
one of cacheHits and cacheMisses is incremented, according to whether a match
is returned. -/
lemma findMatchingTemplate_spec (p : Product) (c : Cache) :
    (findMatchingTemplate p c).2.templates = c.templates
    ∧ (findMatchingTemplate p c).2.stats.totalTransformations
        = c.stats.totalTransformations
    ∧ (findMatchingTemplate p c).2.stats.createdAt = c.stats.createdAt
    ∧ (findMatchingTemplate p c).2.stats.lastUpdated = c.stats.lastUpdated
    ∧ (findMatchingTemplate p c).2.stats.cacheHits
        = c.stats.cacheHits + (if (findMatchingTemplate p c).1.isSome then 1 else 0)
    ∧ (findMatchingTemplate p c).2.stats.cacheMisses
        = c.stats.cacheMisses + (if (findMatchingTemplate p c).1.isSome then 0 else 1) := by
  cases hT : getTemplate c.templates (generateCacheKey p) with
  | none => simp [findMatchingTemplate, hT]
  | some t =>
    by_cases hLen : t.examples.length > 0
    · by_cases hSim : SIMILARITY_THRESHOLD ≤
        listMaxQ (t.examples.map (fun e => calculateSimilarity p e.sourceProduct))
      · simp [findMatchingTemplate, hT, hLen, hSim]
      · simp [findMatchingTemplate, hT, hLen, hSim]
    · simp [findMatchingTemplate, hT, hLen]

/-- A match is returned exactly when the key has a template with an example
whose similarity reaches the 0.7 threshold. -/
lemma findMatchingTemplate_isSome_iff (p : Product) (c : Cache) :
    (findMatchingTemplate p c).1.isSome = true
      ↔ ∃ t, getTemplate c.templates (generateCacheKey p) = some t
          ∧ ∃ e ∈ t.examples,
              SIMILARITY_THRESHOLD ≤ calculateSimilarity p e.sourceProduct := by
  cases hT : getTemplate c.templates (generateCacheKey p) with
  | none => simp [findMatchingTemplate, hT]
  | some t =>
    by_cases hLen : t.examples.length > 0
    · have hne : t.examples ≠ [] := by
        intro h0
        rw [h0] at hLen
        simp at hLen
      by_cases hSim : SIMILARITY_THRESHOLD ≤
          listMaxQ (t.examples.map (fun e => calculateSimilarity p e.sourceProduct))
      · simp only [findMatchingTemplate, hT, hLen, if_true, hSim, Option.isSome_some,
          true_iff]
        exact ⟨t, rfl, (le_listMaxQ_map_iff _ _ _ hne).mp hSim⟩
      · simp only [findMatchingTemplate, hT, hLen, if_true, hSim, if_false,
          Option.isSome_none, Bool.false_eq_true, false_iff]
        rintro ⟨t2, ht2, e, he, hq⟩
        cases ht2
        exact hSim ((le_listMaxQ_map_iff _ _ _ hne).mpr ⟨e, he, hq⟩)
    · have hE : t.examples = [] := List.length_eq_zero.mp (by omega)
      simp [findMatchingTemplate, hT, hLen, hE]

/-- Stats behavior of cacheTransformation: the transformation counter is
incremented, the hit and miss counters are untouched, and the save timestamp
is set. -/
lemma cacheTransformation_stats (p : Product) (o : ShopifyOut) (c : Cache)
    (now : String) :
    (cacheTransformation p o c now).stats.totalTransformations
        = c.stats.totalTransformations + 1
    ∧ (cacheTransformation p o c now).stats.cacheHits = c.stats.cacheHits
    ∧ (cacheTransformation p o c now).stats.cacheMisses = c.stats.cacheMisses
    ∧ (cacheTransformation p o c now).stats.createdAt = c.stats.createdAt
    ∧ (cacheTransformation p o c now).stats.lastUpdated = some now := by
  simp [cacheTransformation]

/-- claim C4: for every candidate product and cached example sourceProduct,
the similarity score equals the weighted indicator sum of the spec
(0.4 category + 0.3 subcategory + 0.3 brand, binary case-insensitive
comparisons with missing fields read as the empty string), it always lies in
the interval from 0 to 1, and with the brand field missing on both sides the
brand factor still counts as a match, contributing its 0.3 weight. -/
theorem calculateSimilarity_matches_spec (p1 : Product) (p2 : SourceProduct) :
    calculateSimilarity p1 p2 = specSimilarity p1 p2
    ∧ 0 ≤ calculateSimilarity p1 p2
    ∧ calculateSimilarity p1 p2 ≤ 1
    ∧ (p1.mfg = none → p2.mfg = none → (0.3 : ℚ) ≤ calculateSimilarity p1 p2) := by
  have hkey : ∀ (a b : Option String), a = none → b = none →
      toLowerStr (jsOr a "") = toLowerStr (jsOr b "") := by
    rintro a b rfl rfl
    rfl
  unfold calculateSimilarity specSimilarity
  by_cases h1 : toLowerStr (jsOr p1.catDesc "") = toLowerStr (jsOr p2.catDesc "") <;>
    by_cases h2 : toLowerStr (jsOr p1.subDesc "") = toLowerStr (jsOr p2.subDesc "") <;>
      by_cases h3 : toLowerStr (jsOr p1.mfg "") = toLowerStr (jsOr p2.mfg "") <;>
        simp only [h1, h2, h3, if_true, if_false, ite_true, ite_false] <;>
          refine ⟨by norm_num, by norm_num, by norm_num, fun ha hb => ?_⟩
  all_goals
    first
      | exact absurd (hkey _ _ ha hb) h3
      | norm_num

/-- claim C4 witness: the theorem applied at a concrete pair of products with
the brand missing on both sides. -/
theorem calculateSimilarity_matches_spec_witness :
    (0.3 : ℚ) ≤ calculateSimilarity { catDesc := some "Guitars" }
      { catDesc := some "Drums" } :=
  (calculateSimilarity_matches_spec { catDesc := some "Guitars" }
    { catDesc := some "Drums" }).2.2.2 rfl rfl

/-- claim C3 counterexample: findMatchingTemplate is not a pure read; on a
fresh cache and the empty product it increments the cacheMisses counter. -/
theorem findMatchingTemplate_mutates_stats :
    ¬ ((findMatchingTemplate {} (freshCache "t0")).2.stats.cacheMisses
        = (freshCache "t0").stats.cacheMisses) := by
  simp [findMatchingTemplate, getTemplate, freshCache]

/-- claim C3 amended: findMatchingTemplate leaves the templates map and the
totalTransformations counter unchanged, but is not a pure read of the stats:
it increments exactly one of cacheHits and cacheMisses itself (cacheHits when
it returns a match, cacheMisses otherwise); the orchestrator performs no
further hit or miss counter mutation. -/
theorem findMatchingTemplate_frame (p : Product) (c : Cache) :
    (findMatchingTemplate p c).2.templates = c.templates
    ∧ (findMatchingTemplate p c).2.stats.totalTransformations
        = c.stats.totalTransformations
    ∧ (findMatchingTemplate p c).2.stats.cacheHits
        = c.stats.cacheHits + (if (findMatchingTemplate p c).1.isSome then 1 else 0)
    ∧ (findMatchingTemplate p c).2.stats.cacheMisses
        = c.stats.cacheMisses + (if (findMatchingTemplate p c).1.isSome then 0 else 1) := by
  obtain ⟨hA, hB, _, _, hC, hD⟩ := findMatchingTemplate_spec p c
  exact ⟨hA, hB, hC, hD⟩

/-- Destructured form of the findMatchingTemplate frame lemma. -/
lemma findMatchingTemplate_spec2 (p : Product) (c : Cache)
    (tm : Option TemplateMatch) (c1 : Cache)
    (hF : findMatchingTemplate p c = (tm, c1)) :
    c1.templates = c.templates
    ∧ c1.stats.totalTransformations = c.stats.totalTransformations
    ∧ c1.stats.cacheHits = c.stats.cacheHits + (if tm.isSome then 1 else 0)
    ∧ c1.stats.cacheMisses = c.stats.cacheMisses + (if tm.isSome then 0 else 1) := by
  have h := findMatchingTemplate_spec p c
  rw [hF] at h
  exact ⟨h.1, h.2.1, h.2.2.2.2.1, h.2.2.2.2.2⟩

/-- Stats behavior of the shared miss tail: hit and miss counters untouched,
transformation counter up by at most one (zero when generation fails). -/
lemma transformMiss_stats (gen : Product → MappedData → Option RawOut)
    (now : String) (p : Product) (md : MappedData) (c1 : Cache) :
    (transformMiss gen now p md c1).cache.stats.cacheHits = c1.stats.cacheHits
    ∧ (transformMiss gen now p md c1).cache.stats.cacheMisses = c1.stats.cacheMisses
    ∧ (transformMiss gen now p md c1).cache.stats.totalTransformations
        ≤ c1.stats.totalTransformations + 1 := by
  cases hg : gen p md with
  | none => simp [transformMiss, hg]
  | some raw =>
    obtain ⟨h1, h2, h3, _, _⟩ :=
      cacheTransformation_stats p (normalizeShopify p md raw) c1 now
    simp [transformMiss, hg, h1, h2, h3]

/-- Per-call stats behavior of the orchestrator: each call increments the sum
of the hit and miss counters by exactly one, and the transformation counter
by at most one. -/
lemma transformProductWithAI_stats (gen : Product → MappedData → Option RawOut)
    (now : String) (p : Product) (md : MappedData) (c : Cache) :
    (transformProductWithAI gen now p md c).cache.stats.cacheHits
      + (transformProductWithAI gen now p md c).cache.stats.cacheMisses
      = c.stats.cacheHits + c.stats.cacheMisses + 1
    ∧ (transformProductWithAI gen now p md c).cache.stats.totalTransformations
      ≤ c.stats.totalTransformations + 1 := by
  cases hF : findMatchingTemplate p c with
  | mk tm c1 =>
  obtain ⟨hA, hB, hC, hD⟩ := findMatchingTemplate_spec2 p c tm c1 hF
  obtain ⟨m1, m2, m3⟩ := transformMiss_stats gen now p md c1
  cases tm with
  | some m =>
    simp only [Option.isSome_some, if_true] at hC hD
    by_cases hs : (0.8 : ℚ) ≤ m.similarity
    · simp only [transformProductWithAI, hF, hs, if_true]
      omega
    · simp only [transformProductWithAI, hF, hs, if_false]
      omega
  | none =>
    simp only [Option.isSome_none, if_false, Bool.false_eq_true] at hC hD
    simp only [transformProductWithAI, hF]
    omega

/-- Stats behavior of a transform sequence. -/
lemma runTransforms_stats (steps : List TransformStep) (c : Cache) :
    (runTransforms steps c).stats.cacheHits
      + (runTransforms steps c).stats.cacheMisses
      = c.stats.cacheHits + c.stats.cacheMisses + steps.length
    ∧ (runTransforms steps c).stats.totalTransformations
      ≤ c.stats.totalTransformations + steps.length := by
  induction steps generalizing c with
  | nil => simp [runTransforms]
  | cons s rest ih =>
    have hstep :=
      transformProductWithAI_stats (fun _ _ => s.genResult) s.now s.product s.mappedData c
    have hrest :=
      ih (transformProductWithAI (fun _ _ => s.genResult) s.now s.product s.mappedData c).cache
    have hgoal : runTransforms (s :: rest) c
        = runTransforms rest
            (transformProductWithAI (fun _ _ => s.genResult) s.now s.product s.mappedData c).cache := by
      simp [runTransforms]
    rw [hgoal]
    simp only [List.length_cons]
    constructor
    · omega
    · omega

/-- Concrete product used in the accounting counterexample. -/
def cx1Product : Product :=
  { catDesc := some "Fretted", subDesc := some "Acoustic", mfg := some "Yamaha" }

/-- Concrete generator output used in the accounting counterexample. -/
def cx1Raw : RawOut := RawOut.bare { title := "T", bodyHtml := "B" }

/-- Concrete transform step used in the accounting counterexample. -/
def cx1Step : TransformStep :=
  { product := cx1Product, mappedData := {}, genResult := some cx1Raw, now := "t1" }

/-- claim C1 counterexample: starting from a fresh cache, a miss on a product
followed by a transform of the identical product (a 1.0-similarity cache hit)
leaves totalTransformations at 1 while cacheHits and cacheMisses are 1 each,
so the claimed equation fails after the second transform. -/
theorem totalTransformations_breaks_accounting :
    ¬ ((runTransforms [cx1Step, cx1Step] (freshCache "t0")).stats.totalTransformations
        = (runTransforms [cx1Step, cx1Step] (freshCache "t0")).stats.cacheHits
          + (runTransforms [cx1Step, cx1Step] (freshCache "t0")).stats.cacheMisses) := by
  simp [runTransforms, transformProductWithAI, transformMiss, findMatchingTemplate,
    cacheTransformation, normalizeShopify, synthVariant, setTemplate, getTemplate,
    generateCacheKey, calculateSimilarity, jsOr, truthy, toLowerStr, trimStr, listMaxQ,
    SIMILARITY_THRESHOLD, freshCache, cx1Step, cx1Product, cx1Raw,
    ratAddZero04, ratAdd0403, ratAdd0703, ratAddZero03, ratAdd0303,
    ratLe0707, ratLe071, ratLe081, ratLe0807]

/-- claim C1 amended: over every transform sequence from a fresh cache, each
completed transform increments exactly one of cacheHits and cacheMisses, so
their sum counts the transforms, while totalTransformations counts only the
write-back (generation) completions; hence totalTransformations is at most
cacheHits plus cacheMisses, with equality not guaranteed (it fails as soon as
a transform resolves via cache hit). -/
theorem stats_accounting (steps : List TransformStep) (t0 : String) :
    (runTransforms steps (freshCache t0)).stats.cacheHits
      + (runTransforms steps (freshCache t0)).stats.cacheMisses = steps.length
    ∧ (runTransforms steps (freshCache t0)).stats.totalTransformations
      ≤ (runTransforms steps (freshCache t0)).stats.cacheHits
        + (runTransforms steps (freshCache t0)).stats.cacheMisses := by
  have h := runTransforms_stats steps (freshCache t0)
  have h0 : (freshCache t0).stats.cacheHits = 0 := rfl
  have h1 : (freshCache t0).stats.cacheMisses = 0 := rfl
  have h2 : (freshCache t0).stats.totalTransformations = 0 := rfl
  rw [h0, h1, h2] at h
  constructor
  · omega
  · omega

/-- Updating an existing key in the templates map makes lookup of that key
return the new template. -/
lemma getTemplate_map_update_self (ts : List (String × Template)) (k : String)
    (t : Template) (hAny : ts.any (fun kv => kv.1 == k) = true) :
    getTemplate (ts.map (fun kv => if kv.1 == k then (k, t) else kv)) k = some t := by
  induction ts with
  | nil => simp at hAny
  | cons kv rest ih =>
    by_cases hk : kv.1 == k
    · simp only [List.map_cons, hk, if_true]
      unfold getTemplate
      rw [List.find?_cons]
      simp
    · simp only [List.any_cons, hk, Bool.false_or] at hAny
      have := ih hAny
      simp only [getTemplate, List.map_cons, hk, if_false, Bool.false_eq_true] at this ⊢
      rw [List.find?_cons]
      simp only [hk]
      exact this

/-- Updating one key in the templates map leaves lookup of a different key
unchanged. -/
lemma getTemplate_map_update_other (ts : List (String × Template)) (k k' : String)
    (t : Template) (hkk : k' ≠ k) :
    getTemplate (ts.map (fun kv => if kv.1 == k then (k, t) else kv)) k'
      = getTemplate ts k' := by
  induction ts with
  | nil => rfl
  | cons kv rest ih =>
    by_cases hk : kv.1 == k
    · have hkEq : kv.1 = k := by simpa using hk
      have h1 : ((k, t).1 == k') = false := by
        simp
        exact fun he => hkk he.symm
      have h2 : (kv.1 == k') = false := by
        simp [hkEq]
        exact fun he => hkk he.symm
      simp only [getTemplate, List.map_cons, hk, if_true]
      rw [List.find?_cons, List.find?_cons]
      simp only [h1, h2]
      exact ih
    · simp only [getTemplate, List.map_cons, hk, if_false, Bool.false_eq_true]
      rw [List.find?_cons, List.find?_cons]
      cases hq : (kv.1 == k')
      · exact ih
      · rfl

/-- Lookup after setTemplate at the written key. -/
lemma getTemplate_setTemplate_self (ts : List (String × Template)) (k : String)
    (t : Template) : getTemplate (setTemplate ts k t) k = some t := by
  unfold setTemplate
  by_cases hAny : ts.any (fun kv => kv.1 == k)
  · simp only [hAny, if_true]
    exact getTemplate_map_update_self ts k t hAny
  · simp only [hAny, if_false, Bool.false_eq_true]
    have hnone : ts.find? (fun kv => kv.1 == k) = none := by
      rw [List.find?_eq_none]
      intro x hx hxk
      exact absurd (List.any_eq_true.mpr ⟨x, hx, hxk⟩) hAny
    simp [getTemplate, List.find?_append, hnone]

/-- Lookup after setTemplate at any other key. -/
lemma getTemplate_setTemplate_other (ts : List (String × Template)) (k k' : String)
    (t : Template) (hkk : k' ≠ k) :
    getTemplate (setTemplate ts k t) k' = getTemplate ts k' := by
  unfold setTemplate
  by_cases hAny : ts.any (fun kv => kv.1 == k)
  · simp only [hAny, if_true]
    exact getTemplate_map_update_other ts k k' t hkk
  · simp only [hAny, if_false, Bool.false_eq_true]
    have h1 : ((k, t).1 == k') = false := by
      simp
      exact fun he => hkk he.symm
    rw [getTemplate, List.find?_append]
    simp [List.find?_cons, h1, getTemplate]

/-- The length of the last-n segment. -/
lemma length_rtakeN {α : Type} (l : List α) (n : ℕ) :
    (l.rtake n).length = min n l.length := by
  rw [List.rtake_eq_reverse_take_reverse]
  simp [List.length_take]

/-- The last-n segment of a list of length at most n is the whole list. -/
lemma rtake_of_length_le {α : Type} (l : List α) (n : ℕ) (h : l.length ≤ n) :
    l.rtake n = l := by
  rw [List.rtake, Nat.sub_eq_zero_of_le h, List.drop_zero]

/-- Trimming to the last n elements, appending, and trimming again is the
same as trimming once at the end. -/
lemma rtake_append_rtake {α : Type} (l t : List α) (n : ℕ) :
    (l.rtake n ++ t).rtake n = (l ++ t).rtake n := by
  rw [List.rtake_eq_reverse_take_reverse, List.rtake_eq_reverse_take_reverse,
    List.rtake_eq_reverse_take_reverse]
  rw [List.reverse_append, List.reverse_append, List.reverse_reverse]
  rw [List.take_append_eq_append_take, List.take_append_eq_append_take, List.take_take]
  have hmin : min (n - t.reverse.length) n = n - t.reverse.length := by omega
  rw [hmin]

/-- The source trimming expression of cacheTransformation (keep the last 5
when more than 5) is exactly the last-5 segment. -/
lemma trim5_eq_rtake (l : List Example) :
    (if l.length > 5 then l.drop (l.length - 5) else l) = l.rtake 5 := by
  by_cases h : l.length > 5
  · simp only [h, if_true]
    rfl
  · simp only [h, if_false]
    exact (rtake_of_length_le l 5 (by omega)).symm

/-- Per-call effect of cacheTransformation on the example list of each key:
the key of the inserted product gets the last-5 segment of its previous
examples extended by the new example; every other key is untouched. -/
lemma examplesAt_cacheTransformation (i : CacheInsert) (k : String) (c : Cache) :
    examplesAt k (cacheTransformation i.product i.shopifyProduct c i.now)
      = if generateCacheKey i.product = k
          then (examplesAt k c ++ [insertedExample i]).rtake 5
          else examplesAt k c := by
  by_cases hkey : generateCacheKey i.product = k
  · simp only [hkey, if_true]
    unfold examplesAt cacheTransformation
    rw [hkey]
    rw [getTemplate_setTemplate_self]
    cases hT : getTemplate c.templates k with
    | none =>
      simp only [hT]
      rw [← trim5_eq_rtake]
      rfl
    | some t =>
      simp only [hT]
      rw [← trim5_eq_rtake]
      rfl
  · simp only [hkey, if_false]
    unfold examplesAt cacheTransformation
    rw [getTemplate_setTemplate_other _ _ _ _ (fun he => hkey he.symm)]

/-- Effect of an insertion sequence on the example list of each key, starting
from any cache whose list under the key is within the bound. -/
lemma examplesAt_runCacheInserts (inserts : List CacheInsert) (k : String)
    (c : Cache) (hc : (examplesAt k c).length ≤ 5) :
    examplesAt k (runCacheInserts inserts c)
      = (examplesAt k c
          ++ (inserts.filter (fun i => generateCacheKey i.product == k)).map
              insertedExample).rtake 5 := by
  induction inserts generalizing c with
  | nil =>
    simp only [runCacheInserts, List.foldl_nil, List.filter_nil, List.map_nil,
      List.append_nil]
    exact (rtake_of_length_le _ 5 hc).symm
  | cons i rest ih =>
    have hstep := examplesAt_cacheTransformation i k c
    have hrun : runCacheInserts (i :: rest) c
        = runCacheInserts rest (cacheTransformation i.product i.shopifyProduct c i.now) := by
      simp [runCacheInserts]
    rw [hrun]
    by_cases hkey : generateCacheKey i.product = k
    · have hlen : (examplesAt k (cacheTransformation i.product i.shopifyProduct c i.now)).length ≤ 5 := by
        rw [hstep, if_pos hkey]
        rw [length_rtakeN]
        omega
      rw [ih _ hlen, hstep, if_pos hkey]
      rw [rtake_append_rtake]
      rw [List.filter_cons_of_pos (by simp [hkey]), List.map_cons]
      rw [List.append_assoc]
      rfl
    · have hlen : (examplesAt k (cacheTransformation i.product i.shopifyProduct c i.now)).length ≤ 5 := by
        rw [hstep, if_neg hkey]
        exact hc
      rw [ih _ hlen, hstep, if_neg hkey]
      rw [List.filter_cons_of_neg (by simp [hkey])]

/-- claim C5: for every cache key, after any sequence of cacheTransformation
calls from a fresh cache the example list under the key has length at most 5,
and its contents are exactly the last five examples inserted under that key,
in insertion order (inserting more than five evicts the oldest). -/
theorem cacheTransformation_retention (inserts : List CacheInsert) (k : String)
    (t0 : String) :
    (examplesAt k (runCacheInserts inserts (freshCache t0))).length ≤ 5
    ∧ examplesAt k (runCacheInserts inserts (freshCache t0))
      = ((inserts.filter (fun i => generateCacheKey i.product == k)).map
          insertedExample).rtake 5 := by
  have hE : examplesAt k (freshCache t0) = [] := rfl
  have h := examplesAt_runCacheInserts inserts k (freshCache t0) (by rw [hE]; simp)
  rw [hE, List.nil_append] at h
  refine ⟨?_, h⟩
  rw [h, length_rtakeN]
  omega

/-- claim C9: the miss-path normalization is idempotent; applying it to its
own (already normalized) output, re-read as an enveloped raw value, returns
that output unchanged: published stays false, images stays empty, and the
variant list, nonempty after the first pass, is kept as is. -/
theorem normalizeShopify_idempotent (p : Product) (md : MappedData) (raw : RawOut) :
    normalizeShopify p md (RawOut.enveloped (normalizeShopify p md raw).product)
      = normalizeShopify p md raw := by
  cases raw with
  | enveloped q =>
    by_cases h : q.variants.isEmpty <;>
      simp [normalizeShopify, h]
  | bare q =>
    by_cases h : q.variants.isEmpty <;>
      simp [normalizeShopify, h]

/-- Concrete matched template whose latest example carries nonempty vendor,
product type and tags, for the template-fallback counterexample. -/
def cx7Match : TemplateMatch :=
  { template :=
      { category := "Fretted", subcategory := "", brand := "Yamaha",
        examples :=
          [{ sourceProduct := {},
             shopifyProduct :=
               { product :=
                   { vendor := "Yamaha", productType := "Guitars", tags := "g, y" } },
             cachedAt := "t0" }],
        createdAt := "t0" }
    similarity := 1
    cacheKey := "fretted||yamaha" }

/-- claim C7 counterexample: a candidate lacking manufacturer, category and
subcategory, applied against a matched template whose latest example carries
vendor Yamaha, type Guitars and nonempty tags, yields empty vendor, empty
product type and empty tags; the template values are never used as
fallbacks. -/
theorem applyTemplate_ignores_template_values :
    (applyTemplate {} cx7Match {}).product.vendor = ""
    ∧ (applyTemplate {} cx7Match {}).product.productType = ""
    ∧ (applyTemplate {} cx7Match {}).product.tags = ""
    ∧ (cx7Match.template.examples.getLastD emptyExample).shopifyProduct.product.vendor
        = "Yamaha"
    ∧ (cx7Match.template.examples.getLastD emptyExample).shopifyProduct.product.productType
        = "Guitars"
    ∧ (cx7Match.template.examples.getLastD emptyExample).shopifyProduct.product.tags
        = "g, y" :=
  ⟨rfl, rfl, rfl, rfl, rfl, rfl⟩

/-- claim C7 amended: the template applicator takes vendor and product type
from the candidate with the candidate-derived mapped fields and then the
empty string as the only fallbacks, and builds tags from the category,
subcategory and brand of the candidate alone; values of the matched template are never used
for these three fields (the output fields are independent of the template). -/
theorem applyTemplate_vendor_type_tags_candidate_only (p : Product) (md : MappedData)
    (tm1 tm2 : TemplateMatch) :
    (applyTemplate p tm1 md).product.vendor = (applyTemplate p tm2 md).product.vendor
    ∧ (applyTemplate p tm1 md).product.productType
        = (applyTemplate p tm2 md).product.productType
    ∧ (applyTemplate p tm1 md).product.tags = (applyTemplate p tm2 md).product.tags
    ∧ (applyTemplate p tm1 md).product.vendor = jsOr p.mfg (jsOr md.vendor "")
    ∧ (applyTemplate p tm1 md).product.productType
        = jsOr p.catDesc (jsOr md.productType "")
    ∧ (applyTemplate p tm1 md).product.tags
        = String.intercalate ", " (filterTruthy [p.catDesc, p.subDesc, p.mfg]) :=
  ⟨rfl, rfl, rfl, rfl, rfl, rfl⟩

/-- The shared miss tail always reports a generator invocation. -/
lemma transformMiss_aiCalled (gen : Product → MappedData → Option RawOut)
    (now : String) (p : Product) (md : MappedData) (c1 : Cache) :
    (transformMiss gen now p md c1).aiCalled = true := by
  cases hg : gen p md <;> simp [transformMiss, hg]

/-- claim C6: every transform that resolves via cache hit (no generator
invocation) leaves the whole templates map, in particular the matched
example list of the matched template, unchanged, and performs no cache persistence. -/
theorem hit_no_mutation_no_save (gen : Product → MappedData → Option RawOut)
    (now : String) (p : Product) (md : MappedData) (c : Cache)
    (h : (transformProductWithAI gen now p md c).aiCalled = false) :
    (transformProductWithAI gen now p md c).cache.templates = c.templates
    ∧ (transformProductWithAI gen now p md c).saved = false := by
  cases hF : findMatchingTemplate p c with
  | mk tm c1 =>
  obtain ⟨hA, _, _, _⟩ := findMatchingTemplate_spec2 p c tm c1 hF
  cases tm with
  | some m =>
    by_cases hs : (0.8 : ℚ) ≤ m.similarity
    · simp only [transformProductWithAI, hF, hs, if_true]
      exact ⟨hA, trivial⟩
    · simp [transformProductWithAI, hF, hs, transformMiss_aiCalled] at h
  | none =>
    simp [transformProductWithAI, hF, transformMiss_aiCalled] at h

/-- Concrete cached template under the key of the witness product. -/
def w6Cache : Cache :=
  { templates :=
      [("fretted|acoustic|yamaha",
        { category := "Fretted", subcategory := "Acoustic", brand := "Yamaha",
          examples :=
            [{ sourceProduct :=
                 { mfg := some "Yamaha", catDesc := some "Fretted",
                   subDesc := some "Acoustic" },
               shopifyProduct := { product := { bodyHtml := "b" } },
               cachedAt := "t0" }],
          createdAt := "t0" })]
    stats := { createdAt := "t0" } }

/-- Concrete product identical in key fields to the cached example. -/
def w6Product : Product :=
  { catDesc := some "Fretted", subDesc := some "Acoustic", mfg := some "Yamaha" }

/-- claim C6 witness: the hit theorem applied to a concrete full-similarity
hit. -/
theorem hit_no_mutation_no_save_witness :
    (transformProductWithAI (fun _ _ => none) "t1" w6Product {} w6Cache).cache.templates
        = w6Cache.templates
    ∧ (transformProductWithAI (fun _ _ => none) "t1" w6Product {} w6Cache).saved
        = false :=
  hit_no_mutation_no_save (fun _ _ => none) "t1" w6Product {} w6Cache
    (by simp [transformProductWithAI, transformMiss, findMatchingTemplate, getTemplate,
      generateCacheKey, calculateSimilarity, jsOr, toLowerStr, trimStr, listMaxQ,
      SIMILARITY_THRESHOLD, w6Product, w6Cache,
      ratAddZero04, ratAdd0403, ratAdd0703, ratAddZero03, ratAdd0303,
      ratLe0707, ratLe071, ratLe081, ratLe0807])

/-- Structure of a returned match: the template under the product key, a
nonempty example list, and the similarity equal to the maximum over its
examples, at least at the 0.7 threshold. -/
lemma findMatchingTemplate_some_elim (p : Product) (c : Cache) (m : TemplateMatch)
    (c1 : Cache) (hF : findMatchingTemplate p c = (some m, c1)) :
    ∃ t, getTemplate c.templates (generateCacheKey p) = some t
      ∧ m.template = t ∧ t.examples ≠ []
      ∧ m.similarity
          = listMaxQ (t.examples.map (fun e => calculateSimilarity p e.sourceProduct))
      ∧ SIMILARITY_THRESHOLD ≤ m.similarity := by
  cases hT : getTemplate c.templates (generateCacheKey p) with
  | none =>
    simp only [findMatchingTemplate, hT] at hF
    simp at hF
  | some t =>
    by_cases hLen : t.examples.length > 0
    · by_cases hSim : SIMILARITY_THRESHOLD ≤
          listMaxQ (t.examples.map (fun e => calculateSimilarity p e.sourceProduct))
      · simp only [findMatchingTemplate, hT, hLen, if_true, hSim] at hF
        rw [Prod.mk.injEq, Option.some.injEq] at hF
        obtain ⟨h1, _⟩ := hF
        subst h1
        exact ⟨t, rfl, rfl, List.length_pos.mp hLen, rfl, hSim⟩
      · simp only [findMatchingTemplate, hT, hLen, if_true, hSim, if_false] at hF
        simp at hF
    · simp only [findMatchingTemplate, hT, hLen] at hF
      simp at hF

/-- A template under the key with a nonempty example list whose maximum
similarity reaches the threshold makes findMatchingTemplate return the
corresponding match. -/
lemma findMatchingTemplate_hit_intro (p : Product) (c : Cache) (t : Template)
    (hT : getTemplate c.templates (generateCacheKey p) = some t)
    (hne : t.examples ≠ [])
    (hSim : SIMILARITY_THRESHOLD ≤
      listMaxQ (t.examples.map (fun e => calculateSimilarity p e.sourceProduct))) :
    (findMatchingTemplate p c).1
      = some { template := t,
               similarity :=
                 listMaxQ (t.examples.map (fun e => calculateSimilarity p e.sourceProduct)),
               cacheKey := generateCacheKey p } := by
  have hLen : t.examples.length > 0 := List.length_pos.mpr hne
  simp [findMatchingTemplate, hT, hLen, hSim]

/-- The generator is skipped exactly on a high-similarity cached match. -/
lemma transform_aiCalled_iff (gen : Product → MappedData → Option RawOut)
    (now : String) (p : Product) (md : MappedData) (c : Cache) :
    (transformProductWithAI gen now p md c).aiCalled = false
      ↔ specHighSimilarityMatch p c := by
  cases hF : findMatchingTemplate p c with
  | mk tm c1 =>
  cases tm with
  | none =>
    simp only [transformProductWithAI, hF]
    rw [transformMiss_aiCalled]
    simp only [Bool.true_eq_false, false_iff]
    rintro ⟨t, hT, e, he, hq⟩
    have hne : t.examples ≠ [] := by
      intro h0
      rw [h0] at he
      cases he
    have hSim : SIMILARITY_THRESHOLD ≤
        listMaxQ (t.examples.map (fun x => calculateSimilarity p x.sourceProduct)) := by
      refine (le_listMaxQ_map_iff _ _ _ hne).mpr ⟨e, he, ?_⟩
      refine le_trans ?_ hq
      rw [SIMILARITY_THRESHOLD]
      norm_num
    have hI := findMatchingTemplate_hit_intro p c t hT hne hSim
    rw [hF] at hI
    cases hI
  | some m =>
    by_cases hs : (0.8 : ℚ) ≤ m.similarity
    · simp only [transformProductWithAI, hF, hs, if_true, true_iff]
      obtain ⟨t, hT, hmt, hne, hsim, _⟩ := findMatchingTemplate_some_elim p c m c1 hF
      refine ⟨t, hT, ?_⟩
      refine (le_listMaxQ_map_iff _ _ _ hne).mp ?_
      rw [← hsim]
      exact hs
    · simp only [transformProductWithAI, hF, hs, if_false]
      rw [transformMiss_aiCalled]
      simp only [Bool.true_eq_false, false_iff]
      rintro ⟨t, hT, e, he, hq⟩
      obtain ⟨t2, hT2, hmt, hne, hsim, _⟩ := findMatchingTemplate_some_elim p c m c1 hF
      rw [hT] at hT2
      cases hT2
      apply hs
      rw [hsim]
      exact (le_listMaxQ_map_iff _ _ _ hne).mpr ⟨e, he, hq⟩

/-- Concrete product for the hit-path witness of the generator condition. -/
def w2Product : Product :=
  { catDesc := some "Brass", subDesc := some "Trumpet", mfg := some "Bach" }

/-- Concrete template whose single example has full similarity to the witness
product. -/
def w2Template : Template :=
  { category := "Brass", subcategory := "Trumpet", brand := "Bach",
    examples :=
      [{ sourceProduct :=
           { mfg := some "Bach", catDesc := some "Brass", subDesc := some "Trumpet" },
         shopifyProduct := { product := { bodyHtml := "d" } },
         cachedAt := "t0" }],
    createdAt := "t0" }

/-- Concrete cache holding the witness template under the witness key. -/
def w2Cache : Cache :=
  { templates := [("brass|trumpet|bach", w2Template)], stats := { createdAt := "t0" } }

/-- The match that findMatchingTemplate returns on the witness data. -/
def w2Match : TemplateMatch :=
  { template := w2Template, similarity := 1, cacheKey := "brass|trumpet|bach" }

/-- The witness cache after the hit counter increment. -/
def w2HitCache : Cache :=
  { w2Cache with stats := { w2Cache.stats with cacheHits := 1 } }

/-- Concrete evaluation of findMatchingTemplate on the witness data. -/
lemma w2findEq : findMatchingTemplate w2Product w2Cache = (some w2Match, w2HitCache) := by
  simp [findMatchingTemplate, getTemplate, generateCacheKey, calculateSimilarity, jsOr,
    toLowerStr, trimStr, listMaxQ, SIMILARITY_THRESHOLD,
    w2Product, w2Cache, w2Template, w2Match, w2HitCache,
    ratAddZero04, ratAdd0403, ratAdd0703, ratAddZero03, ratAdd0303,
    ratLe0707, ratLe071, ratLe081, ratLe0807]

/-- claim C2: the external generator is invoked if and only if the cache
holds no template under the product key with an example of similarity at
least 0.8; and when such a match exists, the output is the applied cached
template, returned with no generator call. -/
theorem generator_iff_no_high_match (gen : Product → MappedData → Option RawOut)
    (now : String) (p : Product) (md : MappedData) (c : Cache) :
    ((transformProductWithAI gen now p md c).aiCalled = true
        ↔ ¬ specHighSimilarityMatch p c)
    ∧ (∀ m c1, findMatchingTemplate p c = (some m, c1) → (0.8 : ℚ) ≤ m.similarity →
        (transformProductWithAI gen now p md c).output = some (applyTemplate p m md)
        ∧ (transformProductWithAI gen now p md c).aiCalled = false) := by
  constructor
  · rw [← transform_aiCalled_iff gen now p md c]
    cases (transformProductWithAI gen now p md c).aiCalled <;> simp
  · intro m c1 hF hs
    simp [transformProductWithAI, hF, hs]

/-- claim C2 witness: on a concrete cache holding a full-similarity example
under the product key, the transform returns the applied template without
invoking the generator. -/
theorem generator_iff_no_high_match_witness :
    (transformProductWithAI (fun _ _ => none) "t1" w2Product {} w2Cache).output
        = some (applyTemplate w2Product w2Match {})
    ∧ (transformProductWithAI (fun _ _ => none) "t1" w2Product {} w2Cache).aiCalled
        = false :=
  (generator_iff_no_high_match (fun _ _ => none) "t1" w2Product {} w2Cache).2
    w2Match w2HitCache w2findEq (by norm_num [w2Match])

/-- Exact-arithmetic fact for the gap-zone witness. -/
lemma ratLt0708 : ((0.7 : ℚ) < 0.8) = True := by norm_num

/-- claim C8: when the best similarity of a product against the cached
examples under its key lies in the gap between the 0.7 match threshold and the 0.8 hit
threshold, and generation succeeds, findMatchingTemplate returns a match and
increments cacheHits, yet the orchestrator still invokes the generator and
persists the write-back, so the one transform increments both cacheHits and
totalTransformations while cacheMisses stays unchanged. -/
theorem gap_zone_increments_hits_and_total (gen : Product → MappedData → Option RawOut)
    (now : String) (p : Product) (md : MappedData) (c : Cache) (raw : RawOut)
    (h7 : (0.7 : ℚ) ≤ bestSimilarity p c)
    (h8 : bestSimilarity p c < 0.8)
    (hg : gen p md = some raw) :
    (findMatchingTemplate p c).1.isSome = true
    ∧ (transformProductWithAI gen now p md c).aiCalled = true
    ∧ (transformProductWithAI gen now p md c).saved = true
    ∧ (transformProductWithAI gen now p md c).cache.stats.cacheHits
        = c.stats.cacheHits + 1
    ∧ (transformProductWithAI gen now p md c).cache.stats.cacheMisses
        = c.stats.cacheMisses
    ∧ (transformProductWithAI gen now p md c).cache.stats.totalTransformations
        = c.stats.totalTransformations + 1 := by
  cases hT : getTemplate c.templates (generateCacheKey p) with
  | none =>
    exfalso
    simp only [bestSimilarity, hT] at h7
    norm_num at h7
  | some t =>
    by_cases hLen : t.examples.length > 0
    · have hbs : bestSimilarity p c
          = listMaxQ (t.examples.map (fun e => calculateSimilarity p e.sourceProduct)) := by
        simp [bestSimilarity, hT, hLen]
      rw [hbs] at h7 h8
      have hSim : SIMILARITY_THRESHOLD ≤
          listMaxQ (t.examples.map (fun e => calculateSimilarity p e.sourceProduct)) := by
        rw [SIMILARITY_THRESHOLD]
        exact h7
      have hne : t.examples ≠ [] := by
        intro h0
        rw [h0] at hLen
        simp at hLen
      have hI := findMatchingTemplate_hit_intro p c t hT hne hSim
      cases hF : findMatchingTemplate p c with
      | mk tm c1 =>
      rw [hF] at hI
      simp only at hI
      subst hI
      obtain ⟨hA, hB, hC, hD⟩ := findMatchingTemplate_spec2 p c _ c1 hF
      simp only [Option.isSome_some, if_true] at hC hD
      have hs : ¬ ((0.8 : ℚ) ≤
          listMaxQ (t.examples.map (fun e => calculateSimilarity p e.sourceProduct))) :=
        not_le.mpr h8
      obtain ⟨s1, s2, s3, _, _⟩ :=
        cacheTransformation_stats p (normalizeShopify p md raw) c1 now
      refine ⟨by simp [hF], ?_, ?_, ?_, ?_, ?_⟩ <;>
        simp only [transformProductWithAI, hF, hs, if_false, transformMiss, hg]
      all_goals
        first
          | rfl
          | rw [s2, hC]
          | (rw [s3, hD]; omega)
          | rw [s1, hB]
    · exfalso
      simp only [bestSimilarity, hT, hLen, if_false] at h7
      norm_num at h7

/-- Concrete product for the gap-zone witness: it has no manufacturer field,
so its cache key takes the brand from the vendor field, while the similarity
comparison reads only the manufacturer and scores 0.4 + 0.3 = 0.7 against the
cached example. -/
def w8Product : Product :=
  { catDesc := some "Fretted", subDesc := some "Acoustic", vendor := some "Yamaha" }

/-- Concrete cache for the gap-zone witness. -/
def w8Cache : Cache :=
  { templates :=
      [("fretted|acoustic|yamaha",
        { category := "Fretted", subcategory := "Acoustic", brand := "Yamaha",
          examples :=
            [{ sourceProduct :=
                 { mfg := some "Yamaha", catDesc := some "Fretted",
                   subDesc := some "Acoustic" },
               shopifyProduct := { product := { bodyHtml := "b" } },
               cachedAt := "t0" }],
          createdAt := "t0" })]
    stats := { createdAt := "t0" } }

/-- Concrete generator output for the gap-zone witness. -/
def w8Raw : RawOut := RawOut.bare { title := "T", bodyHtml := "B" }

/-- claim C8 witness: the gap-zone theorem applied at the concrete 0.7
similarity scenario. -/
theorem gap_zone_increments_hits_and_total_witness :
    (findMatchingTemplate w8Product w8Cache).1.isSome = true
    ∧ (transformProductWithAI (fun _ _ => some w8Raw) "t1" w8Product {} w8Cache).aiCalled
        = true
    ∧ (transformProductWithAI (fun _ _ => some w8Raw) "t1" w8Product {} w8Cache).saved
        = true
    ∧ (transformProductWithAI (fun _ _ => some w8Raw) "t1" w8Product {} w8Cache).cache.stats.cacheHits
        = w8Cache.stats.cacheHits + 1
    ∧ (transformProductWithAI (fun _ _ => some w8Raw) "t1" w8Product {} w8Cache).cache.stats.cacheMisses
        = w8Cache.stats.cacheMisses
    ∧ (transformProductWithAI (fun _ _ => some w8Raw) "t1" w8Product {} w8Cache).cache.stats.totalTransformations
        = w8Cache.stats.totalTransformations + 1 :=
  gap_zone_increments_hits_and_total (fun _ _ => some w8Raw) "t1" w8Product {} w8Cache w8Raw
    (by simp [bestSimilarity, getTemplate, generateCacheKey, calculateSimilarity, jsOr,
      toLowerStr, trimStr, listMaxQ, w8Product, w8Cache,
      ratAddZero04, ratAdd0403, ratAdd0703, ratAddZero03, ratAdd0303, ratLe0707])
    (by simp [bestSimilarity, getTemplate, generateCacheKey, calculateSimilarity, jsOr,
      toLowerStr, trimStr, listMaxQ, w8Product, w8Cache,
      ratAddZero04, ratAdd0403, ratAdd0703, ratAddZero03, ratAdd0303, ratLt0708])
    rfl

/-- claim C10: when no persisted state exists, load returns the freshly
initialized empty cache with zero counters and createdAt set to now, and does
not fail; it fails only when persisted data exists and does not parse as
structured data. -/
theorem loadTransformationCache_spec (disk : Option String)
    (parseJson : String → Option Cache) (now : String) :
    (disk = none →
      loadTransformationCache disk parseJson now
        = Except.ok
            { templates := []
              stats := { totalTransformations := 0, cacheHits := 0, cacheMisses := 0,
                         createdAt := now, lastUpdated := none } })
    ∧ (∀ e, loadTransformationCache disk parseJson now = Except.error e →
        ∃ s, disk = some s ∧ parseJson s = none) := by
  constructor
  · rintro rfl
    rfl
  · intro e he
    cases disk with
    | none => simp [loadTransformationCache] at he
    | some s =>
      cases hp : parseJson s with
      | none => exact ⟨s, rfl, hp⟩
      | some cache => simp [loadTransformationCache, hp] at he

/-- claim C10 witness: the load theorem applied at the missing-file input. -/
theorem loadTransformationCache_spec_witness :
    loadTransformationCache none (fun _ => none) "t0"
      = Except.ok
          { templates := []
            stats := { totalTransformations := 0, cacheHits := 0, cacheMisses := 0,
                       createdAt := "t0", lastUpdated := none } } :=
  (loadTransformationCache_spec none (fun _ => none) "t0").1 rfl

end CSVUploader
